import Mathlib

/-!
Verification of the ambient traffic classification and redirection engine.

Constants and struct layouts are translated from
`src/cni/pkg/ebpf/app/ambient_redirect.h`.  The parsing, identity
resolution and classification logic itself is not part of the staged
sources (only its constants header is), so those operations are modelled
from the specification (sections 4.1 to 4.3 and 6), as indicated on each
definition.
-/

namespace AmbientRedirect

/-! ## Constants from src/cni/pkg/ebpf/app/ambient_redirect.h -/

def OUTBOUND_CB : Nat := 4321
def INBOUND_CB : Nat := 1234
def BYPASS_CB : Nat := 0xC001F00D

def ZTUNNEL_INBOUND_MARK : Nat := 5678
def ZTUNNEL_OUTBOUND_MARK : Nat := 8765

def ZTUNNEL_TPROXY_MARK : Nat := 1024

def ZTUNNEL_INBOUND_PORT : Nat := 15008
def ZTUNNEL_INBOUND_PLAINTEXT_PORT : Nat := 15006
def ZTUNNEL_OUTBOUND_PORT : Nat := 15001

/-- Limited to 1K pods per node. -/
def MAX_PODS_PER_NODE : Nat := 1024
def APP_INFO_MAP_SIZE : Nat := MAX_PODS_PER_NODE

def ETH_ALEN : Nat := 6
def ETH_P_IP : Nat := 0x0800
def ETH_P_IPV6 : Nat := 0x86dd
def UDP_P_DNS : Nat := 53

/-- Number of extension headers that can be skipped. -/
def IPV6_MAX_HEADERS : Nat := 1

def NEXTHDR_HOP : Nat := 0
def NEXTHDR_TCP : Nat := 6
def NEXTHDR_UDP : Nat := 17
def NEXTHDR_IPV6 : Nat := 41
def NEXTHDR_ROUTING : Nat := 43
def NEXTHDR_FRAGMENT : Nat := 44
def NEXTHDR_GRE : Nat := 47
def NEXTHDR_ESP : Nat := 50
def NEXTHDR_AUTH : Nat := 51
def NEXTHDR_ICMP : Nat := 58
def NEXTHDR_NONE : Nat := 59
def NEXTHDR_DEST : Nat := 60
def NEXTHDR_SCTP : Nat := 132
def NEXTHDR_MOBILITY : Nat := 135
def NEXTHDR_MAX : Nat := 255

def CAPTURE_DNS_FLAG : Nat := 1 <<< 0

/-! ## Struct layouts from src/cni/pkg/ebpf/app/ambient_redirect.h -/

/-- struct ztunnel_info: ifindex, mac_addr[ETH_ALEN], flag, pad. -/
structure ztunnel_info where
  ifindex : Nat
  mac_addr : List Nat
  flag : Nat
  pad : Nat
deriving DecidableEq

/-- struct app_info: ifindex, mac_addr[ETH_ALEN], pads[2]. -/
structure app_info where
  ifindex : Nat
  mac_addr : List Nat
  pads : List Nat
deriving DecidableEq

/-- struct host_info: addr[4] (a 4-word address). -/
structure host_info where
  addr : List Nat
deriving DecidableEq

/-! ## Packet descriptor (spec section 3) -/

inductive Ethertype
  | IPv4
  | IPv6
  | Other
deriving DecidableEq

inductive TransportProtocol
  | TCP
  | UDP
  | ICMP
  | Other
deriving DecidableEq

/-- Modelled from the spec: the PacketDescriptor produced by the Header
Parser (spec section 3), whose implementation is not among the staged
sources.  Addresses are normalized to a 4-word representation. -/
structure PacketDescriptor where
  ethertype : Ethertype
  srcAddr : List Nat
  dstAddr : List Nat
  transportProtocol : TransportProtocol
  srcPort : Nat
  dstPort : Nat
  extensionHeaderCount : Nat
deriving DecidableEq

/-- Modelled from the spec: isDNS is true iff transportProtocol is UDP and
dstPort equals UDP_P_DNS (53). -/
def PacketDescriptor.isDNS (d : PacketDescriptor) : Bool :=
  d.transportProtocol == .UDP && d.dstPort == UDP_P_DNS

/-- The fail-open descriptor: ethertype Other, everything else unset, so
downstream logic defaults to Pass (spec section 4.1). -/
def passDescriptor : PacketDescriptor :=
  { ethertype := .Other, srcAddr := [0, 0, 0, 0], dstAddr := [0, 0, 0, 0],
    transportProtocol := .Other, srcPort := 0, dstPort := 0,
    extensionHeaderCount := 0 }

/-! ## Header Parser (spec section 4.1), modelled from the spec -/

/-- Byte i of the buffer, 0 when out of range, reduced to one octet. -/
def byteAt (bs : List Nat) (i : Nat) : Nat :=
  bs.getD i 0 % 256

/-- Big-endian 16-bit read at offset i. -/
def be16 (bs : List Nat) (i : Nat) : Nat :=
  byteAt bs i * 256 + byteAt bs (i + 1)

/-- Big-endian 32-bit read at offset i. -/
def be32 (bs : List Nat) (i : Nat) : Nat :=
  ((byteAt bs i * 256 + byteAt bs (i + 1)) * 256 + byteAt bs (i + 2)) * 256
    + byteAt bs (i + 3)

/-- Modelled from the spec: protocol numbers mapped to the descriptor's
transport classification (1 is IPv4 ICMP; NEXTHDR_ICMP is ICMPv6). -/
def transportOfProto (p : Nat) : TransportProtocol :=
  if p = NEXTHDR_TCP then .TCP
  else if p = NEXTHDR_UDP then .UDP
  else if p = 1 ∨ p = NEXTHDR_ICMP then .ICMP
  else .Other

/-- Modelled from the spec: the extension next-header types that must be
skipped (hop-by-hop, routing, fragment, destination, mobility, auth, ESP);
TCP/UDP/ICMPv6/none terminate the walk (spec section 4.1). -/
def isExtHeader (p : Nat) : Bool :=
  p == NEXTHDR_HOP || p == NEXTHDR_ROUTING || p == NEXTHDR_FRAGMENT ||
  p == NEXTHDR_DEST || p == NEXTHDR_MOBILITY || p == NEXTHDR_AUTH ||
  p == NEXTHDR_ESP

/-- Result of the bounded IPv6 extension-header walk: the last next-header
value seen, the offset reached, how many extension headers were traversed,
and whether the chain was resolved (terminated within the cap with all
headers in bounds). -/
structure Ipv6Walk where
  nexthdr : Nat
  offset : Nat
  count : Nat
  resolved : Bool
deriving DecidableEq

/-- Modelled from the spec: walk the IPv6 next-header chain, skipping at
most fuel extension headers (each 8 * (length byte + 1) octets).  The walk
never fails: running past the cap or off the buffer only clears the
resolved bit (spec section 4.1). -/
def ipv6SkipExt (bs : List Nat) : Nat → Nat → Nat → Ipv6Walk
  | 0, nh, off =>
    if isExtHeader nh = true then ⟨nh, off, 0, false⟩ else ⟨nh, off, 0, true⟩
  | f + 1, nh, off =>
    if isExtHeader nh = true then
      if off + 8 ≤ bs.length then
        let r := ipv6SkipExt bs f (byteAt bs off)
          (off + (byteAt bs (off + 1) + 1) * 8)
        ⟨r.nexthdr, r.offset, r.count + 1, r.resolved⟩
      else ⟨nh, off, 0, false⟩
    else ⟨nh, off, 0, true⟩

/-- Modelled from the spec: port fields are read only for TCP/UDP and only
when the transport header is in bounds; otherwise they stay unset (spec
section 4.1, zero-length payload edge case). -/
def parsePorts (bs : List Nat) (off : Nat) (tp : TransportProtocol) : Nat × Nat :=
  if (tp = .TCP ∨ tp = .UDP) ∧ off + 4 ≤ bs.length then
    (be16 bs off, be16 bs (off + 2))
  else (0, 0)

/-- Modelled from the spec: IPv4 parse at L3 offset l3 — no options
handling required, the protocol field is read directly; truncated headers
fail open to the pass-through descriptor (spec section 4.1). -/
def parseIPv4 (bs : List Nat) (l3 : Nat) : PacketDescriptor :=
  if l3 + 20 ≤ bs.length then
    let ihl := byteAt bs l3 % 16
    let tp := transportOfProto (byteAt bs (l3 + 9))
    let ports := parsePorts bs (l3 + ihl * 4) tp
    { ethertype := .IPv4,
      srcAddr := [be32 bs (l3 + 12), 0, 0, 0],
      dstAddr := [be32 bs (l3 + 16), 0, 0, 0],
      transportProtocol := tp,
      srcPort := ports.1, dstPort := ports.2,
      extensionHeaderCount := 0 }
  else passDescriptor

/-- Modelled from the spec: IPv6 parse at L3 offset l3 — fixed 40-byte
header, then the bounded extension-header walk.  When the walk does not
resolve the chain (cap exceeded or truncated extension header) the packet
is treated as unparsed/pass-through: ethertype Other, transport
unresolved, but the traversed extension-header count is still reported
(spec sections 3, 4.1 and 8). -/
def parseIPv6 (bs : List Nat) (l3 : Nat) : PacketDescriptor :=
  if l3 + 40 ≤ bs.length then
    let src := [be32 bs (l3 + 8), be32 bs (l3 + 12), be32 bs (l3 + 16),
      be32 bs (l3 + 20)]
    let dst := [be32 bs (l3 + 24), be32 bs (l3 + 28), be32 bs (l3 + 32),
      be32 bs (l3 + 36)]
    let w := ipv6SkipExt bs IPV6_MAX_HEADERS (byteAt bs (l3 + 6)) (l3 + 40)
    if w.resolved = true then
      let tp := transportOfProto w.nexthdr
      let ports := parsePorts bs w.offset tp
      { ethertype := .IPv6, srcAddr := src, dstAddr := dst,
        transportProtocol := tp,
        srcPort := ports.1, dstPort := ports.2,
        extensionHeaderCount := w.count }
    else
      { ethertype := .Other, srcAddr := src, dstAddr := dst,
        transportProtocol := .Other, srcPort := 0, dstPort := 0,
        extensionHeaderCount := w.count }
  else passDescriptor

/-- Modelled from the spec: parse(rawBytes) never fails — the Ethernet
header is read first (14 octets, ethertype big-endian at offset 12), then
the IPv4 or IPv6 branch; any truncation or unsupported ethertype degrades
to the pass-through descriptor (spec section 4.1). -/
def parse (bs : List Nat) : PacketDescriptor :=
  if 14 ≤ bs.length then
    if be16 bs 12 = ETH_P_IP then parseIPv4 bs 14
    else if be16 bs 12 = ETH_P_IPV6 then parseIPv6 bs 14
    else passDescriptor
  else passDescriptor

/-! ## Identity Resolver and tables (spec sections 3 and 4.2) -/

inductive Identity
  | Workload (mac : List Nat)
  | TunnelAgent (mac : List Nat) (flag : Nat)
  | Unknown
deriving DecidableEq

def Identity.isWorkload : Identity → Bool
  | .Workload _ => true
  | _ => false

def Identity.isTunnelAgent : Identity → Bool
  | .TunnelAgent _ _ => true
  | _ => false

/-- Modelled from the spec: the three fixed-capacity identity tables, as
association lists keyed by interface index (AppInfoTable, ZtunnelInfoTable)
or by 4-word address (HostInfoTable); spec section 3. -/
structure IdentityTables where
  ztunnel : List ztunnel_info
  app : List app_info
  host : List host_info
deriving DecidableEq

def lookupZtunnel (t : IdentityTables) (idx : Nat) : Option ztunnel_info :=
  t.ztunnel.find? fun z => z.ifindex == idx

def lookupApp (t : IdentityTables) (idx : Nat) : Option app_info :=
  t.app.find? fun a => a.ifindex == idx

/-- Modelled from the spec: resolve(interfaceIndex) checks ZtunnelInfoTable
first (tunnel-agent identity takes precedence), then AppInfoTable; absence
in both yields Unknown (spec section 4.2). -/
def resolve (t : IdentityTables) (idx : Nat) : Identity :=
  match lookupZtunnel t idx with
  | some z => .TunnelAgent z.mac_addr z.flag
  | none =>
    match lookupApp t idx with
    | some a => .Workload a.mac_addr
    | none => .Unknown

/-- Modelled from the spec: resolveHost(address) answers whether an address
belongs to HostInfoTable (spec section 4.2). -/
def resolveHost (t : IdentityTables) (addr : List Nat) : Bool :=
  t.host.any fun h => h.addr == addr

/-- Modelled from the spec: DNS capture for a tunnel-agent entry is gated
on its per-entry flag byte and the CAPTURE_DNS_FLAG bit. -/
def captureDNSEnabled (z : ztunnel_info) : Bool :=
  z.flag &&& CAPTURE_DNS_FLAG != 0

/-- Outcome of a control-plane table mutation (spec section 6). -/
inductive RegResult
  | Ok
  | CapacityExceeded
  | AlreadyRegistered
deriving DecidableEq

/-- Modelled from the spec: registerWorkload(interfaceIndex, macAddress) —
capacity exceeded fails with CapacityExceeded, a duplicate interface index
fails with AlreadyRegistered, and a failed call leaves the tables
unchanged (spec sections 6 and 8). -/
def registerWorkload (t : IdentityTables) (idx : Nat) (mac : List Nat) :
    RegResult × IdentityTables :=
  if MAX_PODS_PER_NODE ≤ t.app.length then (.CapacityExceeded, t)
  else if (lookupApp t idx).isSome then (.AlreadyRegistered, t)
  else (.Ok, { t with app := t.app ++ [⟨idx, mac, [0, 0]⟩] })

/-- Modelled from the spec: unregisterWorkload(interfaceIndex) removes the
entry for that index (spec section 6). -/
def unregisterWorkload (t : IdentityTables) (idx : Nat) : IdentityTables :=
  { t with app := t.app.filter fun a => a.ifindex != idx }

/-! ## Verdict and Redirection Decision Engine (spec sections 3 and 4.3) -/

/-- Verdict of one classification call, carrying the redirect port, the
mark that must accompany it, and the DNS-capture flag where applicable
(spec section 3). -/
inductive Verdict
  | Pass
  | RedirectInbound (port : Nat) (mark : Nat) (dnsCapture : Bool)
  | RedirectOutbound (port : Nat) (mark : Nat)
  | Bypass
  | Drop
deriving DecidableEq

inductive Direction
  | Ingress
  | Egress
deriving DecidableEq

/-- Modelled from the spec: the Redirection Decision Engine's pure decision
function, rules checked in precedence order, first match wins (spec
section 4.3):
1. a packet already carrying the re-entrant BYPASS_CB sentinel (cb) is
   bypassed;
2. DNS (UDP to port 53) with capture enabled for the resolving tunnel
   agent is redirected to the inbound plaintext port with the inbound mark
   and the DNS-capture flag;
3. a host destination is bypassed;
4. egress from a workload is redirected to the outbound port with the
   outbound mark;
5. ingress to a workload is redirected inbound with the inbound mark, to
   the plaintext inbound port when the packet already carries the inbound
   mark, to the inbound port otherwise;
6. tunnel-agent traffic passes;
7. otherwise pass — the conservative default; the enumerated policy never
   emits Drop (spec sections 4.3 and 7). -/
def classify (direction : Direction) (d : PacketDescriptor)
    (srcIdentity dstIdentity : Identity) (isHostDst : Bool)
    (cb mark : Nat) (dnsCaptureOn : Bool) : Verdict :=
  if cb = BYPASS_CB then .Bypass
  else if d.isDNS = true ∧ dnsCaptureOn = true then
    .RedirectInbound ZTUNNEL_INBOUND_PLAINTEXT_PORT ZTUNNEL_INBOUND_MARK true
  else if isHostDst = true then .Bypass
  else if direction = .Egress ∧ srcIdentity.isWorkload = true then
    .RedirectOutbound ZTUNNEL_OUTBOUND_PORT ZTUNNEL_OUTBOUND_MARK
  else if direction = .Ingress ∧ dstIdentity.isWorkload = true then
    .RedirectInbound
      (if mark = ZTUNNEL_INBOUND_MARK then ZTUNNEL_INBOUND_PLAINTEXT_PORT
        else ZTUNNEL_INBOUND_PORT)
      ZTUNNEL_INBOUND_MARK false
  else if srcIdentity.isTunnelAgent = true ∨ dstIdentity.isTunnelAgent = true then
    .Pass
  else .Pass

/-! ## Sample inputs used as concrete instantiations -/

/-- A sample workload MAC address. -/
def wlMac : List Nat := [1, 2, 3, 4, 5, 6]

/-- A sample UDP descriptor with destination port 53 (a DNS packet). -/
def dnsDesc : PacketDescriptor :=
  { ethertype := .IPv4, srcAddr := [167772161, 0, 0, 0],
    dstAddr := [167772162, 0, 0, 0], transportProtocol := .UDP,
    srcPort := 54321, dstPort := 53, extensionHeaderCount := 0 }

/-- A sample non-DNS TCP descriptor. -/
def plainDesc : PacketDescriptor :=
  { ethertype := .IPv4, srcAddr := [167772161, 0, 0, 0],
    dstAddr := [167772162, 0, 0, 0], transportProtocol := .TCP,
    srcPort := 443, dstPort := 80, extensionHeaderCount := 0 }

/-- A crafted IPv6 frame with a three-header chain
hop-by-hop into routing into TCP. -/
def extChainPacket : List Nat :=
  List.replicate 12 0 ++ [0x86, 0xdd] ++
  ([0x60] ++ List.replicate 5 0 ++ [NEXTHDR_HOP, 64] ++ List.replicate 32 0) ++
  ([NEXTHDR_ROUTING, 0] ++ List.replicate 6 0) ++
  ([NEXTHDR_TCP, 0] ++ List.replicate 6 0)

/-- Two sample tunnel-agent entries whose flag bytes agree on bit 0. -/
def ztunA : ztunnel_info := ⟨7, wlMac, 3, 0⟩

def ztunB : ztunnel_info := ⟨8, wlMac, 255, 0⟩

/-- An AppInfoTable filled to its 1024-entry capacity, with interface
indices 0 to 1023. -/
def fullTable : IdentityTables :=
  { ztunnel := [],
    app := (List.range MAX_PODS_PER_NODE).map fun i => ⟨i, wlMac, [0, 0]⟩,
    host := [] }

/-! ## Helper lemmas -/

/-- The extension-header walk never traverses more headers than its fuel. -/
theorem ipv6SkipExt_count_le (bs : List Nat) :
    ∀ fuel nh off, (ipv6SkipExt bs fuel nh off).count ≤ fuel := by
  intro fuel
  induction fuel with
  | zero =>
    intro nh off
    simp only [ipv6SkipExt]
    split <;> simp
  | succ f ih =>
    intro nh off
    simp only [ipv6SkipExt]
    split
    · split
      · simpa using Nat.succ_le_succ (ih _ _)
      · simp
    · simp

/-- Every parsed descriptor traverses at most IPV6_MAX_HEADERS extension
headers. -/
theorem parse_ext_count_le (bs : List Nat) :
    (parse bs).extensionHeaderCount ≤ IPV6_MAX_HEADERS := by
  unfold parse
  split
  · split
    · unfold parseIPv4
      split <;> simp [passDescriptor, IPV6_MAX_HEADERS]
    · split
      · unfold parseIPv6
        split
        · dsimp only
          split <;> exact ipv6SkipExt_count_le ..
        · simp [passDescriptor, IPV6_MAX_HEADERS]
      · simp [passDescriptor, IPV6_MAX_HEADERS]
  · simp [passDescriptor, IPV6_MAX_HEADERS]

/-! ## Claim theorems -/

/-- Claim C1: totality of the data path — for every byte sequence
(including empty, truncated or random bytes) parse returns a
PacketDescriptor and never fails, and for every input classify returns
exactly one Verdict. -/
theorem parse_classify_total :
    (∀ bs : List Nat, ∃ d : PacketDescriptor, parse bs = d) ∧
    (∀ (dir : Direction) (d : PacketDescriptor) (si di : Identity)
      (ihd : Bool) (cb mark : Nat) (cap : Bool),
      ∃! v : Verdict, classify dir d si di ihd cb mark cap = v) := by
  refine ⟨fun bs => ⟨parse bs, rfl⟩,
    fun dir d si di ihd cb mark cap =>
      ⟨classify dir d si di ihd cb mark cap, rfl, ?_⟩⟩
  intro v hv
  exact hv.symm

/-- Claim C2: the process-wide constants equal exactly the values of
ambient_redirect.h: inbound port 15008, plaintext-inbound port 15006,
outbound port 15001, inbound mark 5678, outbound mark 8765, tproxy mark
1024, OUTBOUND_CB 4321, INBOUND_CB 1234, BYPASS_CB 0xC001F00D, DNS port
53, per-node workload capacity 1024. -/
theorem constants_surface :
    ZTUNNEL_INBOUND_PORT = 15008 ∧
    ZTUNNEL_INBOUND_PLAINTEXT_PORT = 15006 ∧
    ZTUNNEL_OUTBOUND_PORT = 15001 ∧
    ZTUNNEL_INBOUND_MARK = 5678 ∧
    ZTUNNEL_OUTBOUND_MARK = 8765 ∧
    ZTUNNEL_TPROXY_MARK = 1024 ∧
    OUTBOUND_CB = 4321 ∧
    INBOUND_CB = 1234 ∧
    BYPASS_CB = 0xC001F00D ∧
    UDP_P_DNS = 53 ∧
    MAX_PODS_PER_NODE = 1024 :=
  ⟨rfl, rfl, rfl, rfl, rfl, rfl, rfl, rfl, rfl, rfl, rfl⟩

/-- Claim C3 (counterexample): a UDP packet to port 53, egress, workload
source, capture enabled — but already carrying the BYPASS_CB sentinel —
is bypassed by rule 1 instead of being redirected by the DNS rule, so the
claim's universal statement fails at this input. -/
theorem dns_precedence_cex :
    classify .Egress dnsDesc (.Workload wlMac) .Unknown false BYPASS_CB 0
        true = .Bypass ∧
    Verdict.Bypass ≠ .RedirectInbound ZTUNNEL_INBOUND_PLAINTEXT_PORT
        ZTUNNEL_INBOUND_MARK true :=
  ⟨rfl, by decide⟩

/-- Claim C3 (amended): for every UDP packet with destination port 53 sent
in egress direction from a Workload source, with DNS capture enabled and
the packet not already carrying the BYPASS_CB sentinel, classify returns
RedirectInbound with the inbound mark and the DNS-capture flag set, even
though the egress-workload rule would otherwise match. -/
theorem dns_precedence (d : PacketDescriptor) (m : List Nat) (di : Identity)
    (ihd : Bool) (cb mark : Nat)
    (hudp : d.transportProtocol = .UDP) (hport : d.dstPort = UDP_P_DNS)
    (hcb : cb ≠ BYPASS_CB) :
    classify .Egress d (.Workload m) di ihd cb mark true =
      .RedirectInbound ZTUNNEL_INBOUND_PLAINTEXT_PORT ZTUNNEL_INBOUND_MARK
        true := by
  have hdns : d.isDNS = true := by
    simp [PacketDescriptor.isDNS, hudp, hport]
  simp [classify, hcb, hdns]

/-- Witness for the amended C3 at a concrete DNS packet. -/
theorem dns_precedence_witness :
    classify .Egress dnsDesc (.Workload wlMac) .Unknown false 0 0 true =
      .RedirectInbound ZTUNNEL_INBOUND_PLAINTEXT_PORT ZTUNNEL_INBOUND_MARK
        true :=
  dns_precedence dnsDesc wlMac .Unknown false 0 0 rfl rfl (by decide)

/-- Claim C4: idempotent re-entry — every packet already carrying the
BYPASS_CB sentinel is classified Bypass regardless of all other packet
fields, identities and direction. -/
theorem bypass_reentry_idempotent (dir : Direction) (d : PacketDescriptor)
    (si di : Identity) (ihd : Bool) (mark : Nat) (cap : Bool) :
    classify dir d si di ihd BYPASS_CB mark cap = .Bypass := by
  simp [classify]

/-- Claim C5 (counterexample): a DNS packet with capture enabled whose
destination is a host address is redirected by the DNS rule (rule 2),
which precedes the host-bypass rule (rule 3), so the claim's universal
Bypass fails at this input. -/
theorem host_bypass_cex :
    classify .Egress dnsDesc .Unknown .Unknown true 0 0 true ≠ .Bypass ∧
    classify .Egress dnsDesc .Unknown .Unknown true 0 0 true =
      .RedirectInbound ZTUNNEL_INBOUND_PLAINTEXT_PORT ZTUNNEL_INBOUND_MARK
        true :=
  ⟨by decide, rfl⟩

/-- Claim C5 (amended): every packet whose destination matches a
HostInfoTable entry is classified Bypass regardless of the source
identity, provided the DNS-capture rule does not apply to it (it is not a
captured DNS packet). -/
theorem host_bypass (dir : Direction) (d : PacketDescriptor)
    (si di : Identity) (cb mark : Nat) (cap : Bool)
    (hdns : ¬(d.isDNS = true ∧ cap = true)) :
    classify dir d si di true cb mark cap = .Bypass := by
  by_cases hcb : cb = BYPASS_CB
  · simp [classify, hcb]
  · simp [classify, hcb, hdns]

/-- Witness for the amended C5: a host-destined TCP packet from a workload
source is bypassed. -/
theorem host_bypass_witness :
    classify .Egress plainDesc (.Workload wlMac) .Unknown true 0 0 true =
      .Bypass :=
  host_bypass .Egress plainDesc (.Workload wlMac) .Unknown 0 0 true
    (by decide)

/-- Claim C6 (counterexample): a packet with both identities Unknown,
non-DNS, non-host destination, but already carrying the BYPASS_CB
sentinel, is classified Bypass rather than Pass, so the claim's universal
Pass fails at this input. -/
theorem unknown_default_cex :
    (plainDesc.isDNS = false ∧
      classify .Egress plainDesc .Unknown .Unknown false BYPASS_CB 0 false =
        .Bypass) ∧
    Verdict.Bypass ≠ .Pass :=
  ⟨⟨rfl, rfl⟩, by decide⟩

/-- Claim C6 (amended): a packet with both identities Unknown, non-DNS and
a non-host destination is never classified Drop, and is classified Pass
provided it does not already carry the BYPASS_CB sentinel (a packet
carrying the sentinel is bypassed by rule 1). -/
theorem unknown_safe_default (dir : Direction) (d : PacketDescriptor)
    (cb mark : Nat) (cap : Bool) (hdns : d.isDNS = false) :
    classify dir d .Unknown .Unknown false cb mark cap ≠ .Drop ∧
    (cb ≠ BYPASS_CB →
      classify dir d .Unknown .Unknown false cb mark cap = .Pass) := by
  by_cases hcb : cb = BYPASS_CB
  · refine ⟨?_, fun h => absurd hcb h⟩
    simp [classify, hcb]
  · have hp : classify dir d .Unknown .Unknown false cb mark cap = .Pass := by
      simp [classify, hcb, hdns, Identity.isWorkload, Identity.isTunnelAgent]
    exact ⟨by simp [hp], fun _ => hp⟩

/-- Witness for the amended C6 at a concrete non-DNS packet. -/
theorem unknown_safe_default_witness :
    classify .Egress plainDesc .Unknown .Unknown false 0 0 false ≠ .Drop ∧
    (0 ≠ BYPASS_CB →
      classify .Egress plainDesc .Unknown .Unknown false 0 0 false = .Pass) :=
  unknown_safe_default .Egress plainDesc 0 0 false rfl

/-- Claim C8: for every ingress packet whose destination identity is
Workload and that is not matched by an earlier rule (no BYPASS_CB
sentinel, not a captured DNS packet, destination not a host address),
classify returns RedirectInbound with the inbound mark, to the plaintext
inbound port 15006 when the packet already carries the inbound mark 5678
and to the inbound port 15008 otherwise. -/
theorem ingress_workload_inbound (d : PacketDescriptor) (si : Identity)
    (m : List Nat) (cb mark : Nat) (cap : Bool)
    (hcb : cb ≠ BYPASS_CB)
    (hdns : ¬(d.isDNS = true ∧ cap = true)) :
    classify .Ingress d si (.Workload m) false cb mark cap =
      .RedirectInbound
        (if mark = ZTUNNEL_INBOUND_MARK then ZTUNNEL_INBOUND_PLAINTEXT_PORT
          else ZTUNNEL_INBOUND_PORT)
        ZTUNNEL_INBOUND_MARK false := by
  simp [classify, hcb, hdns, Identity.isWorkload]

/-- Witness for C8 at a packet already carrying the inbound mark: the
plaintext inbound port is selected. -/
theorem ingress_workload_inbound_witness :
    classify .Ingress plainDesc .Unknown (.Workload wlMac) false 0
        ZTUNNEL_INBOUND_MARK false =
      .RedirectInbound
        (if ZTUNNEL_INBOUND_MARK = ZTUNNEL_INBOUND_MARK then
          ZTUNNEL_INBOUND_PLAINTEXT_PORT
        else ZTUNNEL_INBOUND_PORT)
        ZTUNNEL_INBOUND_MARK false :=
  ingress_workload_inbound plainDesc .Unknown wlMac 0 ZTUNNEL_INBOUND_MARK
    false (by decide) (by decide)

/-- Claim C9: capacity-error atomicity — when AppInfoTable already holds
MAX_PODS_PER_NODE entries, registerWorkload for a new interface index
fails with CapacityExceeded, leaves the tables unchanged, and every
interface index still resolves to the same identity afterwards. -/
theorem register_capacity_atomic (t : IdentityTables) (idx : Nat)
    (mac : List Nat)
    (hfull : t.app.length = MAX_PODS_PER_NODE)
    (_hnew : lookupApp t idx = none) :
    (registerWorkload t idx mac).1 = .CapacityExceeded ∧
    (registerWorkload t idx mac).2 = t ∧
    ∀ j : Nat, resolve (registerWorkload t idx mac).2 j = resolve t j := by
  have h : registerWorkload t idx mac = (.CapacityExceeded, t) := by
    simp [registerWorkload, hfull]
  rw [h]
  exact ⟨rfl, rfl, fun j => rfl⟩

/-- Witness for C9 at a concretely full 1024-entry table and the fresh
interface index 5000. -/
theorem register_capacity_atomic_witness :
    (registerWorkload fullTable 5000 wlMac).1 = .CapacityExceeded ∧
    (registerWorkload fullTable 5000 wlMac).2 = fullTable ∧
    ∀ j : Nat,
      resolve (registerWorkload fullTable 5000 wlMac).2 j =
        resolve fullTable j :=
  register_capacity_atomic fullTable 5000 wlMac
    (by simp [fullTable, MAX_PODS_PER_NODE])
    (by
      simp only [lookupApp, fullTable, MAX_PODS_PER_NODE,
        List.find?_eq_none, List.mem_map, List.mem_range]
      rintro a ⟨i, hi, rfl⟩
      simp only [beq_iff_eq]
      omega)

/-- Claim C7: IPv6 extension-header bound — on an IPv6 frame whose
next-header chain starts with two extension headers (more than one chained
extension header), parse traverses at most IPV6_MAX_HEADERS = 1 of them,
reports extensionHeaderCount = 1, leaves the transport protocol unresolved
(Other, not the chain's terminal type), and never errors; on every input
whatsoever the traversal count stays at most IPV6_MAX_HEADERS. -/
theorem ipv6_ext_header_bound (bs : List Nat)
    (hlen : 62 ≤ bs.length)
    (hety : be16 bs 12 = ETH_P_IPV6)
    (hnh1 : isExtHeader (byteAt bs 20) = true)
    (hnh2 : isExtHeader (byteAt bs 54) = true) :
    (parse bs).extensionHeaderCount = 1 ∧
    (parse bs).transportProtocol = .Other ∧
    ∀ cs : List Nat, (parse cs).extensionHeaderCount ≤ IPV6_MAX_HEADERS := by
  have h14 : 14 ≤ bs.length := by omega
  have h54 : 14 + 40 ≤ bs.length := by omega
  have hne : ¬ be16 bs 12 = ETH_P_IP := by
    rw [hety]; decide
  have hnh1' : isExtHeader (byteAt bs (14 + 6)) = true := hnh1
  have hnh2' : isExtHeader (byteAt bs (14 + 40)) = true := hnh2
  have h8 : 14 + 40 + 8 ≤ bs.length := by omega
  have hwalk : ipv6SkipExt bs IPV6_MAX_HEADERS (byteAt bs (14 + 6))
      (14 + 40) =
      ⟨byteAt bs (14 + 40), 14 + 40 + (byteAt bs (14 + 40 + 1) + 1) * 8, 1,
        false⟩ := by
    show ipv6SkipExt bs (0 + 1) (byteAt bs (14 + 6)) (14 + 40) = _
    simp only [ipv6SkipExt, hnh1', hnh2', h8, if_true]
  have hparse : parse bs =
      { ethertype := .Other,
        srcAddr := [be32 bs (14 + 8), be32 bs (14 + 12), be32 bs (14 + 16),
          be32 bs (14 + 20)],
        dstAddr := [be32 bs (14 + 24), be32 bs (14 + 28), be32 bs (14 + 32),
          be32 bs (14 + 36)],
        transportProtocol := .Other, srcPort := 0, dstPort := 0,
        extensionHeaderCount := 1 } := by
    unfold parse parseIPv6
    rw [if_pos h14, if_neg hne, if_pos hety, if_pos h54]
    dsimp only
    rw [hwalk]
    simp
  refine ⟨?_, ?_, fun cs => parse_ext_count_le cs⟩ <;> rw [hparse]

/-- Witness for C7 at the crafted three-header chain hop-by-hop into
routing into TCP: the parser reports one traversed extension header and an
unresolved transport, not TCP. -/
theorem ipv6_ext_header_bound_witness :
    (parse extChainPacket).extensionHeaderCount = 1 ∧
    (parse extChainPacket).transportProtocol = .Other ∧
    ∀ cs : List Nat, (parse cs).extensionHeaderCount ≤ IPV6_MAX_HEADERS :=
  ipv6_ext_header_bound extChainPacket (by decide) (by decide) (by decide)
    (by decide)

/-- Claim C10: DNS capture for a tunnel-agent entry is gated on bit 0 of
its flag byte — CAPTURE_DNS_FLAG equals 1, capture is enabled exactly when
bit 0 of the flag is set, and two entries whose flag bytes agree on bit 0
get the same capture decision (the other seven bits have no effect). -/
theorem capture_dns_gate (z w : ztunnel_info)
    (hbit : z.flag % 2 = w.flag % 2) :
    CAPTURE_DNS_FLAG = 1 ∧
    captureDNSEnabled z = z.flag.testBit 0 ∧
    captureDNSEnabled z = captureDNSEnabled w := by
  have key : ∀ u : ztunnel_info,
      captureDNSEnabled u = decide (u.flag % 2 = 1) := by
    intro u
    show (u.flag &&& CAPTURE_DNS_FLAG != 0) = decide (u.flag % 2 = 1)
    rw [show CAPTURE_DNS_FLAG = 1 from rfl, Nat.and_one_is_mod]
    rcases Nat.mod_two_eq_zero_or_one u.flag with h | h <;> simp [h]
  refine ⟨rfl, ?_, ?_⟩
  · rw [key z, Nat.testBit_zero]
  · rw [key z, key w, hbit]

/-- Witness for C10 at two entries with flag bytes 3 and 255: both have
bit 0 set and both enable capture. -/
theorem capture_dns_gate_witness :
    CAPTURE_DNS_FLAG = 1 ∧
    captureDNSEnabled ztunA = ztunA.flag.testBit 0 ∧
    captureDNSEnabled ztunA = captureDNSEnabled ztunB :=
  capture_dns_gate ztunA ztunB (by decide)

end AmbientRedirect
